import Mathlib

/-! Shallow embedding of the sliding-window analysis controller of
`src/client/messenger_chat.py` (class `MessengerChat`), together with
theorems about its windowing, triggering, dispatch and reset behaviour.

Modelling conventions:

* `Chat` mirrors the `Chat(sender=..., message=...)` records appended to
  `self.current_chat`; `SentimentResponse` and `MonitoringAlert` mirror the
  records produced by the external analyzer and by `check_analysis`.
* Python integers that can go negative (`last_analyzed_index`,
  `messages_since_analysis`) are `Int`; list lengths are `Nat`.
* `MessengerState` collects exactly the mutable controller attributes the
  specified core is about; GUI windows, fonts and positioning are out of
  scope, as is the opaque content of the external analyzer call.
* The two queues (`self.message_queue` used as handoff queue and
  `self.alert_queue`) are FIFO lists: `put` appends at the right,
  `get_nowait` pops the head.
* Each background `analyze_wrapper` completion is modelled as a state
  transition applied to the controller state at completion time together
  with the outcome of the external call: `none` covers every failure
  (`AsyncTkThread.run` returns `None` on any exception or on its 30 s
  timeout, and `analyze_wrapper` additionally swallows exceptions), `some r`
  is a successful result. -/

namespace WatchPoint

structure Chat where
  sender : String
  message : String
deriving DecidableEq

structure SentimentResponse where
  sentiment : String
  explanation : String
  alert_needed : Bool
deriving DecidableEq

/-- The alert record constructed by `check_analysis`. The source formats
`message_range` as a single string mentioning `start_msg`, `end_msg` and the
window size; the three numbers making up that string are kept here as the
fields `start_msg`, `end_msg` and `win_size`. The `timestamp` is the
formatted `datetime.now()`, passed in as the argument `now` below. -/
structure MonitoringAlert where
  timestamp : String
  child_name : String
  sentiment : String
  explanation : String
  alert_needed : Bool
  start_msg : Int
  end_msg : Int
  win_size : Nat
deriving DecidableEq

/-- The mutable attributes of `MessengerChat` that the windowing core reads
and writes. -/
structure MessengerState where
  current_chat : List Chat
  window_size : Nat
  last_analyzed_index : Int
  messages_since_analysis : Int
  message_queue : List (String × SentimentResponse)
  alert_queue : List MonitoringAlert
deriving DecidableEq

/-- The controller state set up in `MessengerChat.__init__`:
`window_size = 3`, `last_analyzed_index = -1`,
`messages_since_analysis = 0`, empty log and empty queues. -/
def initial_state : MessengerState where
  current_chat := []
  window_size := 3
  last_analyzed_index := -1
  messages_since_analysis := 0
  message_queue := []
  alert_queue := []

/-- Python's slice `l[-k:]`: the last `k` elements; the whole list when
`k = 0` (since `l[-0:]` is `l[0:]`) or when `k` exceeds the length
(in which case `l.length - k = 0` in `Nat`). -/
def pySliceLast (l : List Chat) (k : Nat) : List Chat :=
  if k = 0 then l else l.drop (l.length - k)

/-- `MessengerChat.get_analysis_window`: the whole log when its length is at
most `window_size`, otherwise the slice `self.current_chat[-window_size:]`. -/
def get_analysis_window (s : MessengerState) : List Chat :=
  if s.current_chat.length ≤ s.window_size then s.current_chat
  else pySliceLast s.current_chat s.window_size

/-- `get_analysis_window` in state-passing form: the method body contains
only reads and no assignment, so the state component comes back unchanged. -/
def get_analysis_window_op (s : MessengerState) : List Chat × MessengerState :=
  (get_analysis_window s, s)

/-- The object identity of what `get_analysis_window` returns: in the branch
with `len(self.current_chat) <= self.window_size` the source returns
`self.current_chat` itself, a live reference to the log list, while the
slice in the other branch builds a fresh list. -/
inductive WindowRef where
  | live : WindowRef
  | snapshot : List Chat → WindowRef
deriving DecidableEq

/-- `get_analysis_window` at the level of object references. -/
def get_analysis_window_ref (s : MessengerState) : WindowRef :=
  if s.current_chat.length ≤ s.window_size then WindowRef.live
  else WindowRef.snapshot (pySliceLast s.current_chat s.window_size)

/-- What a holder of the returned reference observes once the log has later
become `log`: a live reference tracks the log, a snapshot does not. -/
def observe_window (r : WindowRef) (log : List Chat) : List Chat :=
  match r with
  | WindowRef.live => log
  | WindowRef.snapshot l => l

/-- `MessengerChat.should_analyze`: true when the log length equals
`window_size` and nothing has been analyzed yet, or when at least
`window_size` messages arrived since the last successful analysis. -/
def should_analyze (s : MessengerState) : Bool :=
  let total_messages := s.current_chat.length
  if total_messages = s.window_size ∧ s.last_analyzed_index = -1 then true
  else if s.messages_since_analysis ≥ (s.window_size : Int) then true
  else false

/-- `should_analyze` in state-passing form: the method body contains only
reads and no assignment, so the state component comes back unchanged. -/
def should_analyze_op (s : MessengerState) : Bool × MessengerState :=
  (should_analyze s, s)

/-- The first two statements of `MessengerChat.handle_message`: append the
new `Chat` to `self.current_chat` and increment
`self.messages_since_analysis` (mirroring the text into the other chat
window is out of scope). -/
def append_message (s : MessengerState) (sender message : String) : MessengerState :=
  { s with
    current_chat := s.current_chat ++ [{ sender := sender, message := message }]
    messages_since_analysis := s.messages_since_analysis + 1 }

/-- The statement `self.message_queue.put((sender, results))` inside
`analyze_wrapper`. -/
def push_result (s : MessengerState) (sender : String) (r : SentimentResponse) :
    MessengerState :=
  { s with message_queue := s.message_queue ++ [(sender, r)] }

/-- The two assignments executed after the queue push inside
`analyze_wrapper`: `self.last_analyzed_index = len(self.current_chat) - 1`
and `self.messages_since_analysis = 0`. The length read is the one current
when the result arrives. -/
def mark_analyzed (s : MessengerState) : MessengerState :=
  { s with
    last_analyzed_index := (s.current_chat.length : Int) - 1
    messages_since_analysis := 0 }

/-- Completion of one background `analyze_wrapper`, applied to the
controller state at completion time. With `results = none` (exception,
timeout, or no result: `AsyncTkThread.run` returns `None` on any error and
the `except` clause swallows exceptions) the body guarded by `if results:`
is skipped and the state is untouched. With `some r` the result is pushed
onto the handoff queue first and the window state is updated second. -/
def analyze_wrapper (s : MessengerState) (sender : String)
    (results : Option SentimentResponse) : MessengerState :=
  match results with
  | none => s
  | some r => mark_analyzed (push_result s sender r)

/-- `MessengerChat.reset_chat`: clear the log, reset the window state, and
drain both the handoff queue and the alert queue (clearing the chat window
widgets is out of scope). -/
def reset_chat (s : MessengerState) : MessengerState :=
  { s with
    current_chat := []
    last_analyzed_index := -1
    messages_since_analysis := 0
    message_queue := []
    alert_queue := [] }

/-- One tick of `check_analysis` inside `start_analysis_checker`: a
non-blocking pop of the handoff queue (an empty queue is a no-op); on a
popped `(sender, results)` the message range is computed from the log
length at popping time and the built alert is appended to `alert_queue`.
The popped `results` is always a `SentimentResponse` object, hence truthy
in the source's `if results:` test, so that test is not a branch here. -/
def check_analysis (s : MessengerState) (now : String) : MessengerState :=
  match s.message_queue with
  | [] => s
  | (sender, results) :: rest =>
    let start_msg : Int :=
      if s.current_chat.length ≤ s.window_size then 1
      else (s.current_chat.length : Int) - (s.window_size : Int) + 1
    let end_msg : Int := (s.current_chat.length : Int)
    let alert : MonitoringAlert :=
      { timestamp := now
        child_name := sender
        sentiment := results.sentiment
        explanation := results.explanation
        alert_needed := results.alert_needed
        start_msg := start_msg
        end_msg := end_msg
        win_size := s.window_size }
    { s with message_queue := rest, alert_queue := s.alert_queue ++ [alert] }

/-- One incoming message in the synchronous dispatch model: sender, text,
and the outcome of the analysis dispatch in case this message triggers one
(`none` means the dispatch fails). A triggered dispatch is assumed to
complete before the next message arrives. -/
abbrev SyncStep := String × String × Option SentimentResponse

/-- `handle_message` for one message under the synchronous dispatch model:
append and count the message, and if `should_analyze` is now true run the
spawned `analyze_wrapper` to completion with the given outcome. -/
def sync_step (s : MessengerState) (st : SyncStep) : MessengerState :=
  if should_analyze (append_message s st.1 st.2.1) then
    analyze_wrapper (append_message s st.1 st.2.1) st.1 st.2.2
  else append_message s st.1 st.2.1

/-- A whole conversation under the synchronous dispatch model. -/
def run_messages (s : MessengerState) (steps : List SyncStep) : MessengerState :=
  List.foldl sync_step s steps

/-- For each message of a run, whether `should_analyze` returned true right
after it was appended, i.e. whether `handle_message` dispatched an analysis
for it. -/
def trigger_trace (s : MessengerState) : List SyncStep → List Bool
  | [] => []
  | st :: rest =>
      should_analyze (append_message s st.1 st.2.1) :: trigger_trace (sync_step s st) rest

/-- A sample analyzer result. -/
def r0 : SentimentResponse :=
  { sentiment := "negative", explanation := "test", alert_needed := true }

/-- Four messages whose triggered dispatches all fail. -/
def fail_steps : List SyncStep :=
  [("Alice", "m1", none), ("Bob", "m2", none), ("Alice", "m3", none), ("Bob", "m4", none)]

/-- Six messages whose triggered dispatches all succeed. -/
def ok_steps : List SyncStep :=
  [("Alice", "m1", some r0), ("Bob", "m2", some r0), ("Alice", "m3", some r0),
    ("Bob", "m4", some r0), ("Alice", "m5", some r0), ("Bob", "m6", some r0)]

/-- Controller state with three messages appended and the dispatch that
message three triggered still in flight (its `analyze_wrapper` has not yet
completed). -/
def inflight_state : MessengerState :=
  { initial_state with
    current_chat := [{ sender := "Alice", message := "m1" },
      { sender := "Bob", message := "m2" },
      { sender := "Alice", message := "m3" }]
    messages_since_analysis := 3 }

/-- `inflight_state` with one result sitting in the handoff queue. -/
def queued_state : MessengerState :=
  { inflight_state with message_queue := [("Alice", r0)] }

/-- `inflight_state` after one further message arrived while the dispatch
was in flight. -/
def late_state : MessengerState :=
  { inflight_state with
    current_chat := inflight_state.current_chat ++ [{ sender := "Bob", message := "m4" }] }

/-- Controller state whose log holds four messages, one more than the
window size. -/
def state4 : MessengerState :=
  { initial_state with
    current_chat := [{ sender := "Alice", message := "m1" },
      { sender := "Bob", message := "m2" },
      { sender := "Alice", message := "m3" },
      { sender := "Bob", message := "m4" }]
    messages_since_analysis := 1 }

/-- A log with a single message, shorter than the window size. -/
def one_state : MessengerState :=
  { initial_state with current_chat := [{ sender := "Alice", message := "m1" }] }

theorem shouldAnalyze_spec (s : MessengerState) :
    should_analyze s = true ↔
      ((s.current_chat.length = s.window_size ∧ s.last_analyzed_index = -1) ∨
        s.messages_since_analysis ≥ (s.window_size : Int)) := by
  unfold should_analyze
  split_ifs with h1 hge <;> simp_all

/-- Invariant of an all-success synchronous run: the window size is the
constant 3 set up in `__init__`, and after `n` messages the counter
`messages_since_analysis` equals `n % 3`. -/
def InvN (n : Nat) (s : MessengerState) : Prop :=
  s.window_size = 3 ∧ s.current_chat.length = n ∧
    s.messages_since_analysis = ((n % 3 : Nat) : Int)

theorem invN_initial : InvN 0 initial_state :=
  ⟨rfl, rfl, rfl⟩

theorem sync_step_invN (n : Nat) (s : MessengerState) (st : SyncStep)
    (h : InvN n s) (hsome : st.2.2.isSome = true) :
    (should_analyze (append_message s st.1 st.2.1) = true ↔ (n + 1) % 3 = 0) ∧
      InvN (n + 1) (sync_step s st) := by
  obtain ⟨hw, hlen, hm⟩ := h
  obtain ⟨r, hr⟩ := Option.isSome_iff_exists.mp hsome
  have h1len : (append_message s st.1 st.2.1).current_chat.length = n + 1 := by
    simp [append_message, hlen]
  have h1m : (append_message s st.1 st.2.1).messages_since_analysis
      = ((n % 3 : Nat) : Int) + 1 := by
    simp [append_message, hm]
  have h1w : (append_message s st.1 st.2.1).window_size = 3 := hw
  have hfired : should_analyze (append_message s st.1 st.2.1) = true ↔ (n + 1) % 3 = 0 := by
    rw [shouldAnalyze_spec, h1len, h1m, h1w]
    constructor
    · rintro (⟨h3, _⟩ | hge) <;> omega
    · intro h0
      right
      omega
  refine ⟨hfired, ?_⟩
  unfold sync_step
  by_cases hf : should_analyze (append_message s st.1 st.2.1) = true
  · rw [if_pos hf, hr]
    have h0 : (n + 1) % 3 = 0 := hfired.mp hf
    refine ⟨h1w, h1len, ?_⟩
    show (0 : Int) = (((n + 1) % 3 : Nat) : Int)
    rw [h0]
    rfl
  · rw [if_neg hf]
    have h0 : ¬ (n + 1) % 3 = 0 := fun hc => hf (hfired.mpr hc)
    refine ⟨h1w, h1len, ?_⟩
    rw [h1m]
    omega

theorem run_messages_invN (steps : List SyncStep) :
    ∀ (n : Nat) (s : MessengerState), InvN n s →
      (∀ st ∈ steps, st.2.2.isSome = true) →
      InvN (n + steps.length) (run_messages s steps) := by
  induction steps with
  | nil =>
      intro n s h _
      simpa [run_messages] using h
  | cons st rest ih =>
      intro n s h hall
      have hst : st.2.2.isSome = true := hall st (List.mem_cons_self st rest)
      have hrest : ∀ x ∈ rest, x.2.2.isSome = true :=
        fun x hx => hall x (List.mem_cons_of_mem st hx)
      have hstep := (sync_step_invN n s st h hst).2
      have hrec := ih (n + 1) (sync_step s st) hstep hrest
      have harith : n + (st :: rest).length = n + 1 + rest.length := by
        simp [List.length_cons]
        omega
      rw [harith]
      simpa [run_messages] using hrec

theorem trigger_trace_spec (steps : List SyncStep) :
    ∀ (n : Nat) (s : MessengerState), InvN n s →
      (∀ st ∈ steps, st.2.2.isSome = true) →
      ∀ k, k < steps.length →
        (((trigger_trace s steps).getD k false = true) ↔ (n + k + 1) % 3 = 0) := by
  induction steps with
  | nil =>
      intro n s _ _ k hk
      simp at hk
  | cons st rest ih =>
      intro n s h hall k hk
      have hst : st.2.2.isSome = true := hall st (List.mem_cons_self st rest)
      obtain ⟨hfired, hinv⟩ := sync_step_invN n s st h hst
      cases k with
      | zero =>
          simpa [trigger_trace] using hfired
      | succ k2 =>
          have hk2 : k2 < rest.length := by
            simp [List.length_cons] at hk
            omega
          have hrec := ih (n + 1) (sync_step s st) hinv
            (fun x hx => hall x (List.mem_cons_of_mem st hx)) k2 hk2
          have harith : n + 1 + k2 + 1 = n + (k2 + 1) + 1 := by omega
          rw [harith] at hrec
          simpa [trigger_trace] using hrec

/-- C1: for every state of the controller, `should_analyze` returns true if
and only if either (a) `last_analyzed_index = -1` and the log length equals
`window_size` exactly, or (b) `messages_since_analysis ≥ window_size`; in
every other state it returns false. -/
theorem c1_should_analyze_iff (s : MessengerState) :
    should_analyze s = true ↔
      ((s.last_analyzed_index = -1 ∧ s.current_chat.length = s.window_size) ∨
        (s.window_size : Int) ≤ s.messages_since_analysis) := by
  rw [shouldAnalyze_spec]
  tauto

/-- C2 counterexample: with `window_size = 3` and every triggered dispatch
failing, the trigger fires at message 3 and again already at message 4
(trace `[false, false, true, true]`), only one message after the previous
trigger. So the claimed cadence — true thereafter exactly once every
`window_size` appended messages regardless of dispatch success or failure —
is false at this concrete input. -/
theorem c2_counterexample :
    ¬ ∀ k, k < fail_steps.length →
        (((trigger_trace initial_state fail_steps).getD k false = true)
          ↔ (k + 1) % initial_state.window_size = 0) := by
  decide

/-- C2 amended: starting from the initial state, provided every dispatched
analysis completes successfully before the next message arrives,
`should_analyze` returns true for the `k`-th appended message (0-indexed
`k`, so message number `k + 1`) exactly when `k + 1` is a multiple of
`window_size`; in particular the very first trigger is at log length
`window_size` and triggers then recur every `window_size` messages. After a
failed dispatch this cadence is broken: the trigger instead fires on every
subsequent append until some dispatch succeeds. -/
theorem c2_trigger_cadence_all_success (steps : List SyncStep)
    (hall : ∀ st ∈ steps, st.2.2.isSome = true) (k : Nat) (hk : k < steps.length) :
    ((trigger_trace initial_state steps).getD k false = true)
      ↔ (k + 1) % initial_state.window_size = 0 := by
  have h := trigger_trace_spec steps 0 initial_state invN_initial hall k hk
  simpa [initial_state] using h

/-- Witness for `c2_trigger_cadence_all_success` at a concrete all-success
run and position 2 (message 3, the first trigger). -/
theorem c2_witness :
    ((trigger_trace initial_state ok_steps).getD 2 false = true)
      ↔ (2 + 1) % initial_state.window_size = 0 :=
  c2_trigger_cadence_all_success ok_steps (by decide) 2 (by decide)

/-- C3: `get_analysis_window` returns exactly
`min window_size log_length` entries, they form a suffix of the log (the
most recently appended entries, in append order), and the call leaves the
state unchanged. The positivity hypothesis matches the source, where
`window_size` is the constant 3. -/
theorem c3_window_shape (s : MessengerState) (h : 0 < s.window_size) :
    (get_analysis_window_op s).1.length = min s.window_size s.current_chat.length ∧
      (get_analysis_window_op s).1 <:+ s.current_chat ∧
      (get_analysis_window_op s).2 = s := by
  refine ⟨?_, ?_, rfl⟩
  · show (get_analysis_window s).length = _
    unfold get_analysis_window pySliceLast
    split_ifs with h1 h2
    · omega
    · omega
    · simp only [List.length_drop]
      omega
  · show get_analysis_window s <:+ s.current_chat
    unfold get_analysis_window pySliceLast
    split_ifs
    · exact List.suffix_refl _
    · exact List.suffix_refl _
    · exact List.drop_suffix _ _

/-- Witness for `c3_window_shape` at a concrete state whose log holds four
messages and whose window size is 3. -/
theorem c3_witness :
    (get_analysis_window_op state4).1.length
        = min state4.window_size state4.current_chat.length ∧
      (get_analysis_window_op state4).1 <:+ state4.current_chat ∧
      (get_analysis_window_op state4).2 = state4 :=
  c3_window_shape state4 (by decide)

/-- C4 counterexample: with `window_size = 3`, appending four messages whose
triggered dispatches all fail leaves `messages_since_analysis = 4 > 3`, so
the claimed invariant `messages_since_analysis ≤ window_size` is violated at
this concrete reachable state. -/
theorem c4_counterexample :
    (run_messages initial_state fail_steps).messages_since_analysis = 4 ∧
      (run_messages initial_state fail_steps).window_size = 3 := by
  decide

/-- C4 amended: `messages_since_analysis` is 0 initially and stays
nonnegative under every operation (append increments it and never yields 0,
a successful dispatch sets it to 0, a failed dispatch leaves it unchanged,
reset reinitializes it to 0); the upper bound
`messages_since_analysis ≤ window_size` additionally holds along every run
from the initial state in which each triggered dispatch completes
successfully before the next append — after a failed dispatch the counter
can exceed `window_size`. -/
theorem c4_counter_invariant :
    initial_state.messages_since_analysis = 0 ∧
    (∀ s : MessengerState, ∀ sender message : String,
      0 ≤ s.messages_since_analysis →
        0 ≤ (append_message s sender message).messages_since_analysis ∧
          (append_message s sender message).messages_since_analysis ≠ 0) ∧
    (∀ s : MessengerState, ∀ sender : String, ∀ r : SentimentResponse,
      (analyze_wrapper s sender (some r)).messages_since_analysis = 0) ∧
    (∀ s : MessengerState, ∀ sender : String,
      (analyze_wrapper s sender none).messages_since_analysis
        = s.messages_since_analysis) ∧
    (∀ s : MessengerState, (reset_chat s).messages_since_analysis = 0) ∧
    (∀ steps : List SyncStep, (∀ st ∈ steps, st.2.2.isSome = true) →
      0 ≤ (run_messages initial_state steps).messages_since_analysis ∧
        (run_messages initial_state steps).messages_since_analysis
          ≤ (initial_state.window_size : Int)) := by
  refine ⟨rfl, ?_, ?_, ?_, ?_, ?_⟩
  · intro s sender message h
    constructor
    · show 0 ≤ s.messages_since_analysis + 1
      omega
    · show s.messages_since_analysis + 1 ≠ 0
      omega
  · intro s sender r
    rfl
  · intro s sender
    rfl
  · intro s
    rfl
  · intro steps hall
    obtain ⟨hw, hlen, hm⟩ := run_messages_invN steps 0 initial_state invN_initial hall
    rw [hm]
    show _ ∧ _ ≤ ((3 : Nat) : Int)
    omega

/-- Witness for `c4_counter_invariant` at a concrete all-success run. -/
theorem c4_witness :
    0 ≤ (run_messages initial_state ok_steps).messages_since_analysis ∧
      (run_messages initial_state ok_steps).messages_since_analysis
        ≤ (initial_state.window_size : Int) :=
  c4_counter_invariant.2.2.2.2.2 ok_steps (by decide)

/-- C5: when the external analyzer call fails (exception, timeout, or no
result, all of which reach `analyze_wrapper` as `results = None`), the
completed dispatch leaves `last_analyzed_index` unchanged, does not reset
`messages_since_analysis`, pushes nothing onto the handoff queue, and in
fact leaves the whole state untouched. -/
theorem c5_failed_dispatch_noop (s : MessengerState) (sender : String) :
    (analyze_wrapper s sender none).last_analyzed_index = s.last_analyzed_index ∧
      (analyze_wrapper s sender none).messages_since_analysis
        = s.messages_since_analysis ∧
      (analyze_wrapper s sender none).message_queue = s.message_queue ∧
      analyze_wrapper s sender none = s :=
  ⟨rfl, rfl, rfl, rfl⟩

/-- C6 counterexample: `reset_chat` has no guard against a dispatch still in
flight. At the concrete state with three messages and a dispatch in flight,
running `reset_chat` and then letting that dispatch complete successfully
pushes its stale result onto the freshly drained handoff queue, so the
claimed guarantee that no interleaved dispatch reintroduces a stale alert
after reset is false. -/
theorem c6_counterexample :
    (analyze_wrapper (reset_chat inflight_state) "Alice" (some r0)).message_queue
      ≠ [] := by
  decide

/-- C6 amended: `reset_chat` itself, as a single operation, yields an empty
log, `last_analyzed_index = -1`, `messages_since_analysis = 0`, and empties
both the handoff queue and the pending-alert queue; however the code does
not guard against an in-flight dispatch that completes after the reset —
such a completion pushes its stale result onto the handoff queue and
reapplies the window-state update to the fresh state. -/
theorem c6_reset_state (s : MessengerState) :
    (reset_chat s).current_chat = [] ∧
      (reset_chat s).last_analyzed_index = -1 ∧
      (reset_chat s).messages_since_analysis = 0 ∧
      (reset_chat s).message_queue = [] ∧
      (reset_chat s).alert_queue = [] :=
  ⟨rfl, rfl, rfl, rfl, rfl⟩

/-- C7: for every popped `(sender, results)` pair, `check_analysis` appends
an alert whose range is computed from the log length `L` at popping time as
`start_msg = max 1 (L - window_size + 1)` and `end_msg = L` (the source's
two-branch computation of `start_msg` coincides with the `max`). -/
theorem c7_alert_range (s : MessengerState) (now sender : String)
    (r : SentimentResponse) (rest : List (String × SentimentResponse))
    (h : s.message_queue = (sender, r) :: rest) :
    ∃ a : MonitoringAlert,
      (check_analysis s now).alert_queue = s.alert_queue ++ [a] ∧
        a.start_msg
          = max 1 ((s.current_chat.length : Int) - (s.window_size : Int) + 1) ∧
        a.end_msg = (s.current_chat.length : Int) := by
  refine ⟨{ timestamp := now
            child_name := sender
            sentiment := r.sentiment
            explanation := r.explanation
            alert_needed := r.alert_needed
            start_msg := if s.current_chat.length ≤ s.window_size then 1
              else (s.current_chat.length : Int) - (s.window_size : Int) + 1
            end_msg := (s.current_chat.length : Int)
            win_size := s.window_size }, ?_, ?_, rfl⟩
  · unfold check_analysis
    rw [h]
  · show (if s.current_chat.length ≤ s.window_size then (1 : Int)
        else (s.current_chat.length : Int) - (s.window_size : Int) + 1) = _
    split_ifs with h1
    · have hle : (s.current_chat.length : Int) - (s.window_size : Int) + 1 ≤ 1 := by
        omega
      exact (max_eq_left hle).symm
    · have hge : (1 : Int) ≤ (s.current_chat.length : Int) - (s.window_size : Int) + 1 := by
        omega
      exact (max_eq_right hge).symm

/-- Witness for `c7_alert_range` at a concrete state with one queued
result and three logged messages. -/
theorem c7_witness :
    ∃ a : MonitoringAlert,
      (check_analysis queued_state "12:00:00").alert_queue
          = queued_state.alert_queue ++ [a] ∧
        a.start_msg
          = max 1 ((queued_state.current_chat.length : Int)
              - (queued_state.window_size : Int) + 1) ∧
        a.end_msg = (queued_state.current_chat.length : Int) :=
  c7_alert_range queued_state "12:00:00" "Alice" r0 [] rfl

/-- C8 counterexample: at a log with a single message (length at most
`window_size`), the source returns `self.current_chat` itself — a live
reference to the log list — so an append performed after the call is
visible through the returned value, which then no longer equals what the
call returned. The fresh-snapshot claim is false at this concrete input. -/
theorem c8_counterexample :
    observe_window (get_analysis_window_ref one_state)
        (one_state.current_chat ++ [{ sender := "Bob", message := "m2" }])
      ≠ get_analysis_window one_state := by
  decide

/-- C8 amended: the returned sequence is a fresh snapshot, unaffected by
appends performed after the call, only when the log is strictly longer than
`window_size` (the slice branch builds a new list); when the log length is
at most `window_size` the call returns the live log itself and later
appends are visible through it. -/
theorem c8_snapshot_when_long (s : MessengerState) (extra : List Chat)
    (h : s.window_size < s.current_chat.length) :
    observe_window (get_analysis_window_ref s) (s.current_chat ++ extra)
      = get_analysis_window s := by
  unfold get_analysis_window_ref get_analysis_window
  rw [if_neg (by omega), if_neg (by omega)]
  rfl

/-- Witness for `c8_snapshot_when_long` at a concrete state with four
logged messages and one later append. -/
theorem c8_witness :
    observe_window (get_analysis_window_ref state4)
        (state4.current_chat ++ [{ sender := "Alice", message := "m5" }])
      = get_analysis_window state4 :=
  c8_snapshot_when_long state4 [{ sender := "Alice", message := "m5" }] (by decide)

/-- C9: when messages arrive while an analysis is in flight, the successful
completion sets `last_analyzed_index` to the log length at result-arrival
time minus 1 — not the length at trigger time — so every in-flight message
index is covered as analyzed even though the analyzed window was a suffix
of the trigger-time log; and the completion pushes the result onto the
handoff queue first (leaving the window state untouched at that point) and
updates the window state second. -/
theorem c9_late_mark (sTrig sMid : MessengerState) (extra : List Chat)
    (sender : String) (r : SentimentResponse)
    (hmid : sMid.current_chat = sTrig.current_chat ++ extra) (hx : extra ≠ []) :
    get_analysis_window sTrig <:+ sTrig.current_chat ∧
      (analyze_wrapper sMid sender (some r)).last_analyzed_index
          = (sMid.current_chat.length : Int) - 1 ∧
      (analyze_wrapper sMid sender (some r)).last_analyzed_index
          ≠ (sTrig.current_chat.length : Int) - 1 ∧
      (∀ i : Nat, sTrig.current_chat.length ≤ i → i < sMid.current_chat.length →
        (i : Int) ≤ (analyze_wrapper sMid sender (some r)).last_analyzed_index) ∧
      analyze_wrapper sMid sender (some r) = mark_analyzed (push_result sMid sender r) ∧
      (push_result sMid sender r).last_analyzed_index = sMid.last_analyzed_index ∧
      (push_result sMid sender r).messages_since_analysis
        = sMid.messages_since_analysis ∧
      (push_result sMid sender r).message_queue = sMid.message_queue ++ [(sender, r)] := by
  have hlen : sMid.current_chat.length = sTrig.current_chat.length + extra.length := by
    rw [hmid, List.length_append]
  have hpos : 0 < extra.length := List.length_pos.mpr hx
  refine ⟨?_, rfl, ?_, ?_, rfl, rfl, rfl, rfl⟩
  · unfold get_analysis_window pySliceLast
    split_ifs
    · exact List.suffix_refl _
    · exact List.suffix_refl _
    · exact List.drop_suffix _ _
  · show ((sMid.current_chat.length : Int) - 1) ≠ (sTrig.current_chat.length : Int) - 1
    omega
  · intro i h1 h2
    show (i : Int) ≤ (sMid.current_chat.length : Int) - 1
    omega

/-- Witness for `c9_late_mark`: three messages at trigger time, one more
arriving in flight. -/
theorem c9_witness :
    get_analysis_window inflight_state <:+ inflight_state.current_chat ∧
      (analyze_wrapper late_state "Alice" (some r0)).last_analyzed_index
          = (late_state.current_chat.length : Int) - 1 ∧
      (analyze_wrapper late_state "Alice" (some r0)).last_analyzed_index
          ≠ (inflight_state.current_chat.length : Int) - 1 ∧
      (∀ i : Nat, inflight_state.current_chat.length ≤ i →
          i < late_state.current_chat.length →
        (i : Int) ≤ (analyze_wrapper late_state "Alice" (some r0)).last_analyzed_index) ∧
      analyze_wrapper late_state "Alice" (some r0)
          = mark_analyzed (push_result late_state "Alice" r0) ∧
      (push_result late_state "Alice" r0).last_analyzed_index
          = late_state.last_analyzed_index ∧
      (push_result late_state "Alice" r0).messages_since_analysis
          = late_state.messages_since_analysis ∧
      (push_result late_state "Alice" r0).message_queue
          = late_state.message_queue ++ [("Alice", r0)] :=
  c9_late_mark inflight_state late_state [{ sender := "Bob", message := "m4" }]
    "Alice" r0 rfl (by decide)

/-- C10: `should_analyze` is read-only — in state-passing form it returns
the state (log, `last_analyzed_index`, `messages_since_analysis`,
`window_size`, both queues) unchanged, and a second call on the returned
state yields the same boolean. -/
theorem c10_should_analyze_readonly (s : MessengerState) :
    (should_analyze_op s).2 = s ∧
      (should_analyze_op ((should_analyze_op s).2)).1 = (should_analyze_op s).1 :=
  ⟨rfl, rfl⟩

end WatchPoint
